import Mathlib

/-!
Shallow embedding of `src/sources/osg/EllipsoidModel.js` (osgjs):
an ellipsoid model converting between geodetic (latitude, longitude, height)
and geocentric Cartesian (X, Y, Z) coordinates, and deriving a local
east/north/up tangent frame.  JavaScript numbers are modelled as real
numbers; `Math.sin`, `Math.cos`, `Math.sqrt`, `Math.atan`, `Math.atan2`
become `Real.sin`, `Real.cos`, `Real.sqrt`, `Real.arctan` and an explicit
`atan2`.  Mutable state (`this._radiusEquator`, …) becomes explicit state
passing on a structure; methods that in JavaScript could mutate the
receiver are additionally given `…Run` wrappers returning the post-state
paired with the value, so that absence of mutation is a provable statement.
-/

noncomputable section

namespace Osg

/-- Four-quadrant arctangent, following JavaScript `Math.atan2(y, x)`
(signed zeros are not modelled; `atan2 0 0 = 0`). -/
def atan2 (y x : ℝ) : ℝ :=
  if 0 < x then Real.arctan (y / x)
  else if x < 0 then
    (if 0 ≤ y then Real.arctan (y / x) + Real.pi else Real.arctan (y / x) - Real.pi)
  else
    (if 0 < y then Real.pi / 2 else if y < 0 then -(Real.pi / 2) else 0)

/-- `EllipsoidModel.WGS_84_RADIUS_EQUATOR` (EllipsoidModel.js line 13). -/
def WGS_84_RADIUS_EQUATOR : ℝ := 6378137.0

/-- `EllipsoidModel.WGS_84_RADIUS_POLAR` (EllipsoidModel.js line 14). -/
def WGS_84_RADIUS_POLAR : ℝ := 6356752.3142

/-- The mutable fields of an `EllipsoidModel` instance:
`this._radiusEquator`, `this._radiusPolar`, `this._eccentricitySquared`. -/
structure EllipsoidModel where
  radiusEquator : ℝ
  radiusPolar : ℝ
  eccentricitySquared : ℝ

/-- `computeCoefficients` (lines 93–96): the eccentricity-squared value
computed from two radii, `2 f - f²` with `f = (re - rp) / re`. -/
def computeCoefficients (re rp : ℝ) : ℝ :=
  let flattening := (re - rp) / re
  2.0 * flattening - flattening * flattening

/-- The constructor (lines 7–11): WGS-84 radii, then `computeCoefficients`. -/
def EllipsoidModel.new : EllipsoidModel :=
  { radiusEquator := WGS_84_RADIUS_EQUATOR
    radiusPolar := WGS_84_RADIUS_POLAR
    eccentricitySquared := computeCoefficients WGS_84_RADIUS_EQUATOR WGS_84_RADIUS_POLAR }

/-- `setRadiusEquator` (lines 17–20): store the radius, recompute the coefficient. -/
def setRadiusEquator (s : EllipsoidModel) (radius : ℝ) : EllipsoidModel :=
  { radiusEquator := radius
    radiusPolar := s.radiusPolar
    eccentricitySquared := computeCoefficients radius s.radiusPolar }

/-- `setRadiusPolar` (lines 24–27): store the radius, recompute the coefficient. -/
def setRadiusPolar (s : EllipsoidModel) (radius : ℝ) : EllipsoidModel :=
  { radiusEquator := s.radiusEquator
    radiusPolar := radius
    eccentricitySquared := computeCoefficients s.radiusEquator radius }

/-- `isWGS84` (lines 89–91): exact equality of both radii with the constants. -/
def isWGS84 (s : EllipsoidModel) : Prop :=
  s.radiusEquator = WGS_84_RADIUS_EQUATOR ∧ s.radiusPolar = WGS_84_RADIUS_POLAR

/-- The prime-vertical radius of curvature
`N = radiusEquator / sqrt(1 - eccentricitySquared * sin(lat)²)`,
computed identically at lines 38 and 65. -/
def primeVerticalRadius (s : EllipsoidModel) (latitude : ℝ) : ℝ :=
  let sinLatitude := Real.sin latitude
  s.radiusEquator / Real.sqrt (1.0 - s.eccentricitySquared * sinLatitude * sinLatitude)

/-- The mathematical content of `convertLatLongHeightToXYZ` (lines 31–46):
the produced `(X, Y, Z)` triple (container handling is modelled by
`convertLatLongHeightToXYZWith` below). -/
def convertLatLongHeightToXYZ (s : EllipsoidModel)
    (latitude longitude height : ℝ) : ℝ × ℝ × ℝ :=
  let sinLatitude := Real.sin latitude
  let cosLatitude := Real.cos latitude
  let N := s.radiusEquator /
    Real.sqrt (1.0 - s.eccentricitySquared * sinLatitude * sinLatitude)
  let X := (N + height) * cosLatitude * Real.cos longitude
  let Y := (N + height) * cosLatitude * Real.sin longitude
  let Z := (N * (1.0 - s.eccentricitySquared) + height) * sinLatitude
  (X, Y, Z)

/-- The latitude computed by `convertXYZToLatLongHeight` (lines 53–61):
single-pass Bowring approximation. -/
def bowringLatitude (s : EllipsoidModel) (X Y Z : ℝ) : ℝ :=
  let p := Real.sqrt (X * X + Y * Y)
  let theta := atan2 (Z * s.radiusEquator) (p * s.radiusPolar)
  let eDashSquared := (s.radiusEquator * s.radiusEquator -
      s.radiusPolar * s.radiusPolar) / (s.radiusPolar * s.radiusPolar)
  let sinTheta := Real.sin theta
  let cosTheta := Real.cos theta
  Real.arctan ((Z + eDashSquared * s.radiusPolar * sinTheta * sinTheta * sinTheta) /
    (p - s.eccentricitySquared * s.radiusEquator * cosTheta * cosTheta * cosTheta))

/-- The height divisor of `convertXYZToLatLongHeight` (lines 67–68):
`cos(latitude)`, replaced by `1` when it is exactly zero. -/
def heightDivisor (s : EllipsoidModel) (X Y Z : ℝ) : ℝ :=
  if Real.cos (bowringLatitude s X Y Z) = 0 then 1
  else Real.cos (bowringLatitude s X Y Z)

/-- The mathematical content of `convertXYZToLatLongHeight` (lines 47–74):
the produced `(latitude, longitude, height)` triple. -/
def convertXYZToLatLongHeight (s : EllipsoidModel) (X Y Z : ℝ) : ℝ × ℝ × ℝ :=
  let p := Real.sqrt (X * X + Y * Y)
  let latitude := bowringLatitude s X Y Z
  let longitude := atan2 Y X
  let N := primeVerticalRadius s latitude
  let height := p / heightDivisor s X Y Z - N
  (latitude, longitude, height)

/-- `computeLocalUpVector` (lines 75–88): convert to geodetic, then the
ellipsoid-normal direction at that latitude/longitude. -/
def computeLocalUpVector (s : EllipsoidModel) (X Y Z : ℝ) : ℝ × ℝ × ℝ :=
  let coord := convertXYZToLatLongHeight s X Y Z
  let latitude := coord.1
  let longitude := coord.2.1
  (Real.cos longitude * Real.cos latitude,
   Real.sin longitude * Real.cos latitude,
   Real.sin latitude)

/-- Modelled from the spec: `osg/Matrix` is not under `src/`.  A 4×4
transform, indexed by (row, column); the spec describes row 0/1/2 as the
east/north/up rotation rows and row 3 as the translation row. -/
def Matrix4 := Fin 4 → Fin 4 → ℝ

/-- Modelled from the spec: `Matrix.set(m, row, col, value)` of the
missing `osg/Matrix` module replaces the single entry (row, col). -/
def matrixSet (m : Matrix4) (row col : Fin 4) (value : ℝ) : Matrix4 :=
  fun i j => if i = row ∧ j = col then value else m i j

/-- Modelled from the spec: `Matrix.makeTranslate(x, y, z, result)` of the
missing `osg/Matrix` module overwrites `result` with the transform whose
rotation part is the identity and whose translation row (row 3) is
`(x, y, z, 1)`. -/
def makeTranslate (x y z : ℝ) : Matrix4 := fun i j =>
  if i = 3 then (if j = 0 then x else if j = 1 then y else if j = 2 then z else 1)
  else if (i : ℕ) = (j : ℕ) then 1 else 0

/-- Modelled from the spec: `Vec3.cross(a, b, out)` of the missing
`osg/Vec3` module, the right-handed cross product. -/
def vec3cross (a b : ℝ × ℝ × ℝ) : ℝ × ℝ × ℝ :=
  (a.2.1 * b.2.2 - a.2.2 * b.2.1,
   a.2.2 * b.1 - a.1 * b.2.2,
   a.1 * b.2.1 - a.2.1 * b.1)

/-- The `up` scratch vector of `computeCoordinateFrame` (lines 119–121). -/
def upVector (latitude longitude : ℝ) : ℝ × ℝ × ℝ :=
  (Real.cos longitude * Real.cos latitude,
   Real.sin longitude * Real.cos latitude,
   Real.sin latitude)

/-- The `east` scratch vector of `computeCoordinateFrame` (lines 124–125).
Only components 0 and 1 are assigned; component 2 keeps the 0 it holds
from `Vec3.create()` (line 115) and is never written by anything. -/
def eastVector (longitude : ℝ) : ℝ × ℝ × ℝ :=
  (-Real.sin longitude, -Real.cos longitude, 0)

/-- `computeCoordinateFrame` (lines 113–143): computes up, east and
north = up × east, and writes them into rows 2, 0 and 1 of the 3×3
rotation block of `localToWorld` via nine `Matrix.set` calls. -/
def computeCoordinateFrame (latitude longitude : ℝ) (localToWorld : Matrix4) :
    Matrix4 :=
  let up := upVector latitude longitude
  let east := eastVector longitude
  let north := vec3cross up east
  matrixSet (matrixSet (matrixSet
    (matrixSet (matrixSet (matrixSet
      (matrixSet (matrixSet (matrixSet localToWorld
        0 0 east.1) 0 1 east.2.1) 0 2 east.2.2)
      1 0 north.1) 1 1 north.2.1) 1 2 north.2.2)
    2 0 up.1) 2 1 up.2.1) 2 2 up.2.2

/-- `computeLocalToWorldTransformFromLatLongHeight` (lines 97–106): the
XYZ conversion is written into the first slots of `result`, but
`Matrix.makeTranslate` then overwrites `result` entirely with the
translation transform at that position, before the frame is installed. -/
def computeLocalToWorldTransformFromLatLongHeight (s : EllipsoidModel)
    (latitude longitude height : ℝ) : Matrix4 :=
  let pos := convertLatLongHeightToXYZ s latitude longitude height
  computeCoordinateFrame latitude longitude (makeTranslate pos.1 pos.2.1 pos.2.2)

/-- `computeLocalToWorldTransformFromXYZ` (lines 107–112): convert to
geodetic, build the translation at the literal (X, Y, Z), install the
frame at the derived latitude/longitude. -/
def computeLocalToWorldTransformFromXYZ (s : EllipsoidModel) (X Y Z : ℝ) :
    Matrix4 :=
  let lla := convertXYZToLatLongHeight s X Y Z
  let m := makeTranslate X Y Z
  computeCoordinateFrame lla.1 lla.2.1 m

/-- Modelled from the spec: the three-component containers of the missing
`osg/Vec3` module. -/
def Vec3 := Fin 3 → ℝ

/-- Modelled from the spec: `Vec3.create()` allocates a fresh zero vector. -/
def vec3create : Vec3 := fun _ => 0

/-- A single `result[i] = v` store into a container. -/
def vset (c : Vec3) (i : Fin 3) (v : ℝ) : Vec3 :=
  fun j => if j = i then v else c j

/-- `convertLatLongHeightToXYZ` with its container handling (lines 31–46):
when `result` is omitted a deprecation warning is emitted (modelled as the
Bool) and a fresh vector is allocated; the three components are stored
into the container and the container is returned. -/
def convertLatLongHeightToXYZWith (s : EllipsoidModel)
    (latitude longitude height : ℝ) (result : Option Vec3) : Vec3 × Bool :=
  let warned := result.isNone
  let container := match result with
    | none => vec3create
    | some r => r
  let out := convertLatLongHeightToXYZ s latitude longitude height
  (vset (vset (vset container 0 out.1) 1 out.2.1) 2 out.2.2, warned)

/-- `convertXYZToLatLongHeight` with its container handling (lines 47–74),
analogous to `convertLatLongHeightToXYZWith`. -/
def convertXYZToLatLongHeightWith (s : EllipsoidModel)
    (X Y Z : ℝ) (result : Option Vec3) : Vec3 × Bool :=
  let warned := result.isNone
  let container := match result with
    | none => vec3create
    | some r => r
  let out := convertXYZToLatLongHeight s X Y Z
  (vset (vset (vset container 0 out.1) 1 out.2.1) 2 out.2.2, warned)

/-! Stateful wrappers: each method's effect on the receiver, paired with
its value.  The JavaScript bodies of the conversion and frame methods
contain no assignment to `this._radiusEquator`, `this._radiusPolar` or
`this._eccentricitySquared`, so each wrapper returns the receiver
unchanged; the wrappers make that absence of mutation a statement about
definitions rather than a remark. -/

/-- Receiver effect of `convertLatLongHeightToXYZ`. -/
def convertLatLongHeightToXYZRun (s : EllipsoidModel)
    (latitude longitude height : ℝ) : EllipsoidModel × (ℝ × ℝ × ℝ) :=
  (s, convertLatLongHeightToXYZ s latitude longitude height)

/-- Receiver effect of `convertXYZToLatLongHeight`. -/
def convertXYZToLatLongHeightRun (s : EllipsoidModel)
    (X Y Z : ℝ) : EllipsoidModel × (ℝ × ℝ × ℝ) :=
  (s, convertXYZToLatLongHeight s X Y Z)

/-- Receiver effect of `computeLocalUpVector`. -/
def computeLocalUpVectorRun (s : EllipsoidModel)
    (X Y Z : ℝ) : EllipsoidModel × (ℝ × ℝ × ℝ) :=
  (s, computeLocalUpVector s X Y Z)

/-- Receiver effect of `computeCoordinateFrame`. -/
def computeCoordinateFrameRun (s : EllipsoidModel)
    (latitude longitude : ℝ) (localToWorld : Matrix4) :
    EllipsoidModel × Matrix4 :=
  (s, computeCoordinateFrame latitude longitude localToWorld)

/-- Receiver effect of `computeLocalToWorldTransformFromLatLongHeight`. -/
def computeLocalToWorldTransformFromLatLongHeightRun (s : EllipsoidModel)
    (latitude longitude height : ℝ) : EllipsoidModel × Matrix4 :=
  (s, computeLocalToWorldTransformFromLatLongHeight s latitude longitude height)

/-- Receiver effect of `computeLocalToWorldTransformFromXYZ`. -/
def computeLocalToWorldTransformFromXYZRun (s : EllipsoidModel)
    (X Y Z : ℝ) : EllipsoidModel × Matrix4 :=
  (s, computeLocalToWorldTransformFromXYZ s X Y Z)

/-- The geodetic-to-Cartesian formulas exactly as the spec states them,
for comparison with the source-derived `convertLatLongHeightToXYZ`:
`N = radiusEquator / sqrt(1 - eccentricitySquared sin² lat)`,
`X = (N+h) cos lat cos lon`, `Y = (N+h) cos lat sin lon`,
`Z = (N (1-eccentricitySquared) + h) sin lat`. -/
def convertLatLongHeightToXYZSpec (s : EllipsoidModel)
    (latitude longitude height : ℝ) : ℝ × ℝ × ℝ :=
  let N := s.radiusEquator /
    Real.sqrt (1 - s.eccentricitySquared * Real.sin latitude ^ 2)
  ((N + height) * Real.cos latitude * Real.cos longitude,
   (N + height) * Real.cos latitude * Real.sin longitude,
   (N * (1 - s.eccentricitySquared) + height) * Real.sin latitude)

/-- The documented flattening of the stored radii,
`f = (radiusEquator - radiusPolar) / radiusEquator`. -/
def flatteningOf (s : EllipsoidModel) : ℝ :=
  (s.radiusEquator - s.radiusPolar) / s.radiusEquator

/-- The stored coefficient agrees with `2 f - f²` recomputed from the
currently stored radii. -/
def coeffConsistent (s : EllipsoidModel) : Prop :=
  s.eccentricitySquared = 2.0 * flatteningOf s - flatteningOf s * flatteningOf s

/-- Claim C5: after construction and after every `setRadiusEquator r` or
`setRadiusPolar r`, the stored `eccentricitySquared` equals exactly
`2 f - f²` with `f = (radiusEquator - radiusPolar) / radiusEquator`
computed from the currently stored radii; the coefficient is never stale. -/
theorem eccentricity_coefficient_consistent :
    coeffConsistent EllipsoidModel.new ∧
    (∀ (s : EllipsoidModel) (r : ℝ), coeffConsistent (setRadiusEquator s r)) ∧
    (∀ (s : EllipsoidModel) (r : ℝ), coeffConsistent (setRadiusPolar s r)) :=
  ⟨rfl, fun _ _ => rfl, fun _ _ => rfl⟩

/-- Claim C8: `isWGS84` holds exactly when both stored radii equal the
WGS-84 constants 6378137.0 and 6356752.3142, with no tolerance; and a
freshly constructed `EllipsoidModel` satisfies it. -/
theorem isWGS84_exact_and_default :
    (∀ s : EllipsoidModel,
      isWGS84 s ↔ (s.radiusEquator = 6378137.0 ∧ s.radiusPolar = 6356752.3142)) ∧
    isWGS84 EllipsoidModel.new :=
  ⟨fun _ => Iff.rfl, rfl, rfl⟩

/-- Claim C9: none of the conversion or frame operations changes the
model's state: the post-state returned by each stateful wrapper is the
receiver itself, so `radiusEquator`, `radiusPolar` and
`eccentricitySquared` are identical before and after the call. -/
theorem conversions_do_not_mutate :
    (∀ (s : EllipsoidModel) (lat lon h : ℝ),
      (convertLatLongHeightToXYZRun s lat lon h).1 = s) ∧
    (∀ (s : EllipsoidModel) (X Y Z : ℝ),
      (convertXYZToLatLongHeightRun s X Y Z).1 = s) ∧
    (∀ (s : EllipsoidModel) (X Y Z : ℝ),
      (computeLocalUpVectorRun s X Y Z).1 = s) ∧
    (∀ (s : EllipsoidModel) (lat lon : ℝ) (m : Matrix4),
      (computeCoordinateFrameRun s lat lon m).1 = s) ∧
    (∀ (s : EllipsoidModel) (lat lon h : ℝ),
      (computeLocalToWorldTransformFromLatLongHeightRun s lat lon h).1 = s) ∧
    (∀ (s : EllipsoidModel) (X Y Z : ℝ),
      (computeLocalToWorldTransformFromXYZRun s X Y Z).1 = s) :=
  ⟨fun _ _ _ _ => rfl, fun _ _ _ _ => rfl, fun _ _ _ _ => rfl,
   fun _ _ _ _ => rfl, fun _ _ _ _ => rfl, fun _ _ _ _ => rfl⟩

/-- Claim C4: the height recovery of `convertXYZToLatLongHeight` never
divides by zero: for every input the divisor is `cos(latitude)` with `1`
substituted when that cosine is exactly zero, hence it is nonzero, and
the returned height is the total real number `p / divisor - N`. -/
theorem convertXYZToLatLongHeight_height_divisor_safe :
    ∀ (s : EllipsoidModel) (X Y Z : ℝ),
      heightDivisor s X Y Z ≠ 0 ∧
      (heightDivisor s X Y Z = Real.cos (bowringLatitude s X Y Z) ∨
        heightDivisor s X Y Z = 1) ∧
      (convertXYZToLatLongHeight s X Y Z).2.2 =
        Real.sqrt (X * X + Y * Y) / heightDivisor s X Y Z -
          primeVerticalRadius s (bowringLatitude s X Y Z) := by
  intro s X Y Z
  refine ⟨?_, ?_, rfl⟩
  · unfold heightDivisor
    split
    · exact one_ne_zero
    · assumption
  · unfold heightDivisor
    split
    · exact Or.inr rfl
    · exact Or.inl rfl

/-- Claim C3: `convertLatLongHeightToXYZ` computes exactly the documented
formulas (`N = radiusEquator / sqrt(1 - eccentricitySquared sin² lat)`,
`X = (N+h) cos lat cos lon`, `Y = (N+h) cos lat sin lon`,
`Z = (N (1 - eccentricitySquared) + h) sin lat`), and with WGS-84
defaults `convertLatLongHeightToXYZ 0 0 0 = (6378137.0, 0, 0)`. -/
theorem convertLatLongHeightToXYZ_formula_and_example :
    (∀ (s : EllipsoidModel) (latitude longitude height : ℝ),
      convertLatLongHeightToXYZ s latitude longitude height =
        convertLatLongHeightToXYZSpec s latitude longitude height) ∧
    convertLatLongHeightToXYZ EllipsoidModel.new 0 0 0 = (6378137.0, 0, 0) := by
  constructor
  · intro s latitude longitude height
    simp only [convertLatLongHeightToXYZ, convertLatLongHeightToXYZSpec]
    norm_num [pow_two, mul_assoc]
  · simp [convertLatLongHeightToXYZ, EllipsoidModel.new, WGS_84_RADIUS_EQUATOR]
    norm_num [Real.sqrt_one]

/-- Claim C6: for every (latitude, longitude) and every 4×4 matrix,
`computeCoordinateFrame` writes only the nine rotation entries —
row 0 = east = (-sin lon, -cos lon, 0), row 1 = north = up × east,
row 2 = up = (cos lon cos lat, sin lon cos lat, sin lat) — and leaves
every entry of the fourth row and of the fourth column unchanged. -/
theorem computeCoordinateFrame_rows_and_translation
    (latitude longitude : ℝ) (m : Matrix4) :
    (computeCoordinateFrame latitude longitude m 0 0 = -Real.sin longitude ∧
     computeCoordinateFrame latitude longitude m 0 1 = -Real.cos longitude ∧
     computeCoordinateFrame latitude longitude m 0 2 = 0) ∧
    (computeCoordinateFrame latitude longitude m 1 0 =
       (vec3cross (upVector latitude longitude) (eastVector longitude)).1 ∧
     computeCoordinateFrame latitude longitude m 1 1 =
       (vec3cross (upVector latitude longitude) (eastVector longitude)).2.1 ∧
     computeCoordinateFrame latitude longitude m 1 2 =
       (vec3cross (upVector latitude longitude) (eastVector longitude)).2.2) ∧
    (computeCoordinateFrame latitude longitude m 2 0 =
       Real.cos longitude * Real.cos latitude ∧
     computeCoordinateFrame latitude longitude m 2 1 =
       Real.sin longitude * Real.cos latitude ∧
     computeCoordinateFrame latitude longitude m 2 2 = Real.sin latitude) ∧
    (∀ i j : Fin 4, i = 3 ∨ j = 3 →
      computeCoordinateFrame latitude longitude m i j = m i j) := by
  refine ⟨⟨?_, ?_, ?_⟩, ⟨?_, ?_, ?_⟩, ⟨?_, ?_, ?_⟩, ?_⟩
  all_goals simp [computeCoordinateFrame, matrixSet, upVector, eastVector]
  intro i j hij
  fin_cases i <;> fin_cases j <;> simp_all

/-- Instance of claim C6's untouched-translation clause at a concrete
input: the frame call at (0, 0) leaves entry (3, 0) of the translation
matrix at 5. -/
theorem computeCoordinateFrame_rows_and_translation_witness :
    computeCoordinateFrame 0 0 (makeTranslate 5 6 7) 3 0 =
      makeTranslate 5 6 7 3 0 :=
  (computeCoordinateFrame_rows_and_translation 0 0 (makeTranslate 5 6 7)).2.2.2
    3 0 (Or.inl rfl)

/-- Claim C7: the transform returned by
`computeLocalToWorldTransformFromXYZ` has translation row exactly
(X, Y, Z, 1) — the literal input, not a round-tripped value — while each
entry of its 3×3 rotation block equals the corresponding entry of
`computeCoordinateFrame` at the latitude/longitude derived from
(X, Y, Z), whatever matrix that frame is installed into. -/
theorem computeLocalToWorldTransformFromXYZ_translation_literal
    (s : EllipsoidModel) (X Y Z : ℝ) :
    (computeLocalToWorldTransformFromXYZ s X Y Z 3 0 = X ∧
     computeLocalToWorldTransformFromXYZ s X Y Z 3 1 = Y ∧
     computeLocalToWorldTransformFromXYZ s X Y Z 3 2 = Z ∧
     computeLocalToWorldTransformFromXYZ s X Y Z 3 3 = 1) ∧
    (∀ (m : Matrix4) (i j : Fin 4), i ≠ 3 → j ≠ 3 →
      computeLocalToWorldTransformFromXYZ s X Y Z i j =
        computeCoordinateFrame (convertXYZToLatLongHeight s X Y Z).1
          (convertXYZToLatLongHeight s X Y Z).2.1 m i j) := by
  refine ⟨⟨?_, ?_, ?_, ?_⟩, ?_⟩
  all_goals
    simp [computeLocalToWorldTransformFromXYZ, computeCoordinateFrame,
      matrixSet, makeTranslate]
  intro m i j hi hj
  fin_cases i <;> fin_cases j <;> simp_all

/-- Instance of claim C7's rotation clause at a concrete input: entry
(0, 0) of the transform at (1, 2, 3) equals the frame entry at the
derived geodetic angles, installed into an unrelated matrix. -/
theorem computeLocalToWorldTransformFromXYZ_translation_literal_witness :
    computeLocalToWorldTransformFromXYZ EllipsoidModel.new 1 2 3 0 0 =
      computeCoordinateFrame
        (convertXYZToLatLongHeight EllipsoidModel.new 1 2 3).1
        (convertXYZToLatLongHeight EllipsoidModel.new 1 2 3).2.1
        (makeTranslate 9 9 9) 0 0 :=
  (computeLocalToWorldTransformFromXYZ_translation_literal
      EllipsoidModel.new 1 2 3).2 (makeTranslate 9 9 9) 0 0
    (by decide) (by decide)

/-- Claim C10: when a result container is supplied, both conversions
write the three output components into that container and return it with
no deprecation warning, the returned value depending only on the outputs
(every component of the supplied container is overwritten); when the
container is omitted, a deprecation warning is emitted and a freshly
allocated vector carries the same three components. -/
theorem container_write_and_return :
    ∀ (s : EllipsoidModel) (lat lon h X Y Z : ℝ) (c d : Vec3),
      ((convertLatLongHeightToXYZWith s lat lon h (some c)).2 = false ∧
       (convertLatLongHeightToXYZWith s lat lon h (some c)).1 0 =
         (convertLatLongHeightToXYZ s lat lon h).1 ∧
       (convertLatLongHeightToXYZWith s lat lon h (some c)).1 1 =
         (convertLatLongHeightToXYZ s lat lon h).2.1 ∧
       (convertLatLongHeightToXYZWith s lat lon h (some c)).1 2 =
         (convertLatLongHeightToXYZ s lat lon h).2.2 ∧
       (convertLatLongHeightToXYZWith s lat lon h (some c)).1 =
         (convertLatLongHeightToXYZWith s lat lon h (some d)).1) ∧
      ((convertLatLongHeightToXYZWith s lat lon h none).2 = true ∧
       (convertLatLongHeightToXYZWith s lat lon h none).1 =
         (convertLatLongHeightToXYZWith s lat lon h (some vec3create)).1) ∧
      ((convertXYZToLatLongHeightWith s X Y Z (some c)).2 = false ∧
       (convertXYZToLatLongHeightWith s X Y Z (some c)).1 0 =
         (convertXYZToLatLongHeight s X Y Z).1 ∧
       (convertXYZToLatLongHeightWith s X Y Z (some c)).1 1 =
         (convertXYZToLatLongHeight s X Y Z).2.1 ∧
       (convertXYZToLatLongHeightWith s X Y Z (some c)).1 2 =
         (convertXYZToLatLongHeight s X Y Z).2.2 ∧
       (convertXYZToLatLongHeightWith s X Y Z (some c)).1 =
         (convertXYZToLatLongHeightWith s X Y Z (some d)).1) ∧
      ((convertXYZToLatLongHeightWith s X Y Z none).2 = true ∧
       (convertXYZToLatLongHeightWith s X Y Z none).1 =
         (convertXYZToLatLongHeightWith s X Y Z (some vec3create)).1) := by
  intro s lat lon h X Y Z c d
  refine ⟨⟨rfl, ?_, ?_, ?_, ?_⟩, ⟨rfl, rfl⟩, ⟨rfl, ?_, ?_, ?_, ?_⟩, ⟨rfl, rfl⟩⟩
  all_goals
    first
    | (funext i; fin_cases i <;>
        simp [convertLatLongHeightToXYZWith, convertXYZToLatLongHeightWith, vset])
    | (simp [convertLatLongHeightToXYZWith, convertXYZToLatLongHeightWith, vset])

/-- Claim C1 fails on the code: at latitude 0, longitude π/4 — well
inside (-89°, 89°) — the east row (row 0) and the up row (row 2) written
by `computeCoordinateFrame` have dot product -1 rather than 0 (east is
the exact negation of up there, since the code computes
east = (-sin lon, -cos lon, 0)), and the north row (row 1) = up × east is
the zero vector rather than a unit vector. -/
theorem frame_rows_not_orthogonal_at_lon_pi_div_four :
    (computeCoordinateFrame 0 (Real.pi / 4) (makeTranslate 0 0 0) 0 0 *
       computeCoordinateFrame 0 (Real.pi / 4) (makeTranslate 0 0 0) 2 0 +
     computeCoordinateFrame 0 (Real.pi / 4) (makeTranslate 0 0 0) 0 1 *
       computeCoordinateFrame 0 (Real.pi / 4) (makeTranslate 0 0 0) 2 1 +
     computeCoordinateFrame 0 (Real.pi / 4) (makeTranslate 0 0 0) 0 2 *
       computeCoordinateFrame 0 (Real.pi / 4) (makeTranslate 0 0 0) 2 2 = -1) ∧
    (computeCoordinateFrame 0 (Real.pi / 4) (makeTranslate 0 0 0) 1 0 = 0 ∧
     computeCoordinateFrame 0 (Real.pi / 4) (makeTranslate 0 0 0) 1 1 = 0 ∧
     computeCoordinateFrame 0 (Real.pi / 4) (makeTranslate 0 0 0) 1 2 = 0) := by
  have hsqrt : Real.sqrt 2 * Real.sqrt 2 = 2 :=
    Real.mul_self_sqrt (by norm_num)
  refine ⟨?_, ?_, ?_, ?_⟩
  all_goals
    simp [computeCoordinateFrame, matrixSet, upVector, eastVector, vec3cross,
      Real.sin_pi_div_four, Real.cos_pi_div_four]
  nlinarith [hsqrt]

end Osg
